import Mathlib

/-!
Shallow embedding of `auto_offset_z.py` (AutoOffsetZCalibration, the
ProbeHelper variant).  Python floats are modelled as exact rationals;
Python exceptions as explicit error results; the side effects of
`cmd_AUTO_OFFSET_Z` (SET_GCODE_OFFSET reset, start_probe) as an explicit
action trace.
-/

namespace AutoOffsetZ

/-- Configuration values as read by `AutoOffsetZCalibration.__init__`.
`Option` fields model config options that may be absent (the Python
`config.getfloat(name, default)` calls supply a default when the option
is missing); plain fields model values the config parser requires. -/
structure RawConfig where
  position_max : ℚ
  ignore_alignment : Option Bool
  endstop_pin : List Char
  speed : Option ℚ
  offsetadjust : Option ℚ
  offset_min : Option ℚ
  offset_max : Option ℚ
  endstop_min : Option ℚ
  endstop_max : Option ℚ
  endstopswitch : Option ℚ
  has_safe_z_home : Bool
  z_hop : Option ℚ
  has_bltouch : Bool
  bltouch_x_offset : ℚ
  bltouch_y_offset : ℚ
  has_probe : Bool
  probe_x_offset : ℚ
  probe_y_offset : ℚ
  has_quad_gantry_level : Bool
  has_z_tilt : Bool
  probe_points : (ℚ × ℚ) × (ℚ × ℚ)
deriving Repr, DecidableEq

/-- The state of a constructed `AutoOffsetZCalibration` object: the
attributes `__init__` stores on `self`. -/
structure Config where
  max_z : ℚ
  ignore_alignment : Bool
  endstop_pin : List Char
  speed : ℚ
  offsetadjust : ℚ
  offset_min : ℚ
  offset_max : ℚ
  endstop_min : ℚ
  endstop_max : ℚ
  endstopswitch : ℚ
  zHop : ℚ
  x_offset : ℚ
  y_offset : ℚ
  adjusttype : String
  pointsEndstop : ℚ × ℚ
  pointsBed : ℚ × ℚ
  probePoints : (ℚ × ℚ) × (ℚ × ℚ)
deriving Repr, DecidableEq

/-- The characters of the Python string literal "virtual_endstop"
tested by `'virtual_endstop' in self.endstop_pin`. -/
def virtualEndstopChars : List Char := "virtual_endstop".toList

/-- Embedding of `AutoOffsetZCalibration.__init__`: reads the config in
source order and either raises a config error (`Except.error` with the
message) or produces the constructed object state.  Mirrors lines 18-101
of `auto_offset_z.py`. -/
def init (raw : RawConfig) : Except String Config :=
  let max_z := raw.position_max
  let ignore_alignment := raw.ignore_alignment.getD false
  let endstop_pin := raw.endstop_pin
  let speed := raw.speed.getD 50
  if speed ≤ 0 then .error "speed must be above 0" else
  let offsetadjust := raw.offsetadjust.getD 0
  let offset_min := raw.offset_min.getD (-1)
  let offset_max := raw.offset_max.getD 1
  let endstop_min := raw.endstop_min.getD 0
  let endstop_max := raw.endstop_max.getD 0
  let endstopswitch := raw.endstopswitch.getD (1/2)
  if ¬ raw.has_safe_z_home then
    .error "AutoOffsetZ: X safe_z_home has to be definied for save probing."
  else if raw.z_hop = some 0 ∨ raw.z_hop = none then
    .error "AutoOffsetZ: z_hop has to be set in safe_z_home to avoid crashing the probe."
  else
  let zHop := raw.z_hop.getD 0
  let sensor : Except String (ℚ × ℚ) :=
    if raw.has_bltouch then
      if raw.bltouch_x_offset = 0 ∧ raw.bltouch_y_offset = 0 then
        .error "AutoOffsetZ: Check the x and y offset [bltouch] - they both appear to be zero."
      else if virtualEndstopChars <:+: endstop_pin then
        .error "AutoOffsetZ: BLTouch can't be used as a Z endstop with this command. Use a physical endstop instead."
      else .ok (raw.bltouch_x_offset, raw.bltouch_y_offset)
    else if raw.has_probe then
      if raw.probe_x_offset = 0 ∧ raw.probe_y_offset = 0 then
        .error "AutoOffsetZ: Check the x and y offset [probe] - they both appear to be zero."
      else if virtualEndstopChars <:+: endstop_pin then
        .error "AutoOffsetZ: Probe can't be used as z endstop. Use a physical endstop instead."
      else .ok (raw.probe_x_offset, raw.probe_y_offset)
    else
      .error "AutoOffsetZ: No BLTouch or probe configured in your system - check your setup."
  match sensor with
  | .error e => .error e
  | .ok (x_offset, y_offset) =>
    let adjusttypeE : Except String String :=
      if raw.has_quad_gantry_level then .ok "qgl"
      else if raw.has_z_tilt then .ok "ztilt"
      else if ignore_alignment then .ok "ignore"
      else .error "AutoOffsetZ: Your config must include [quad_gantry_level] or [z_tilt]."
    match adjusttypeE with
    | .error e => .error e
    | .ok adjusttype =>
      let pointsEndstop := (raw.probe_points.1.1 - x_offset, raw.probe_points.1.2 - y_offset)
      let pointsBed := (raw.probe_points.2.1 - x_offset, raw.probe_points.2.2 - y_offset)
      .ok { max_z := max_z
            ignore_alignment := ignore_alignment
            endstop_pin := endstop_pin
            speed := speed
            offsetadjust := offsetadjust
            offset_min := offset_min
            offset_max := offset_max
            endstop_min := endstop_min
            endstop_max := endstop_max
            endstopswitch := endstopswitch
            zHop := zHop
            x_offset := x_offset
            y_offset := y_offset
            adjusttype := adjusttype
            pointsEndstop := pointsEndstop
            pointsBed := pointsBed
            probePoints := (pointsEndstop, pointsBed) }

/-- Embedding of `AutoOffsetZCalibration.rounding` (lines 107-111):
`expoN = n * 10 ** decimals;
if abs(expoN) - abs(math.floor(expoN)) < 0.5: return math.floor(expoN) / 10 ** decimals;
return math.ceil(expoN) / 10 ** decimals`. -/
def rounding (n : ℚ) (decimals : ℕ) : ℚ :=
  let expoN := n * 10 ^ decimals
  if |expoN| - |(⌊expoN⌋ : ℚ)| < 1/2 then
    (⌊expoN⌋ : ℚ) / 10 ^ decimals
  else
    (⌈expoN⌉ : ℚ) / 10 ^ decimals

/-- The errors `probe_finalize` can raise.  `typeErrorMinCheck` and
`typeErrorMaxCheck` both model the Python
`TypeError: 'float' object is not subscriptable` raised by the expression
`zendstop[2]` (at line 193 resp. line 196), where `zendstop` is already
the scalar `positions[0][2]`; `indexError` models subscripting a
too-short positions list. -/
inductive FinErr where
  | offsetOutOfRange
  | typeErrorMinCheck
  | typeErrorMaxCheck
  | indexError
deriving Repr, DecidableEq

/-- Embedding of `AutoOffsetZCalibration.probe_finalize` (lines 167-199):
computes the offset from the two probed positions, runs the guard checks
in source order and, when all pass, returns the offset that is handed to
`set_offset`.  The checks on lines 193 and 196 short-circuit on
`endstop_min != 0` (resp. `endstop_max != 0`); when the left operand is
true Python then evaluates `zendstop[2]`, which subscripts a float and
raises `TypeError`.  The `offsets` parameter of the source, used only for
logging, is omitted. -/
def probe_finalize (cfg : Config) (positions : List (ℚ × ℚ × ℚ)) : Except FinErr ℚ :=
  match positions with
  | p0 :: p1 :: _ =>
    let zendstop := p0.2.2
    let zbed := p1.2.2
    let diffbedendstop := zendstop - zbed
    let offset := rounding ((0 - diffbedendstop + cfg.endstopswitch) + cfg.offsetadjust) 3
    if offset < cfg.offset_min ∨ offset > cfg.offset_max then
      .error .offsetOutOfRange
    else if cfg.endstop_min ≠ 0 then
      .error .typeErrorMinCheck
    else if cfg.endstop_max ≠ 0 then
      .error .typeErrorMaxCheck
    else
      .ok offset
  | _ => .error .indexError

/-- Modelled from the spec: the coordinate-offset mechanism
(`gcode_move.cmd_SET_GCODE_OFFSET`, an external collaborator) with an
absolute `Z` argument "set Z offset to absolute value V, idempotent,
independent of history" (spec section 6).  The state is the stored Z
coordinate offset. -/
def cmd_SET_GCODE_OFFSET (_state : ℚ) (z : ℚ) : ℚ := z

/-- Embedding of `AutoOffsetZCalibration.set_offset` (lines 204-214):
issues `SET_GCODE_OFFSET Z=0` and then `SET_GCODE_OFFSET Z=offset`. -/
def set_offset (state : ℚ) (offset : ℚ) : ℚ :=
  let state1 := cmd_SET_GCODE_OFFSET state 0
  cmd_SET_GCODE_OFFSET state1 offset

/-- Running `probe_finalize` against a coordinate-offset state: on success
the computed offset is applied via `set_offset`; a raised error leaves the
state unchanged. -/
def probe_finalize_run (cfg : Config) (positions : List (ℚ × ℚ × ℚ)) (state : ℚ) : ℚ :=
  match probe_finalize cfg positions with
  | .ok offset => set_offset state offset
  | .error _ => state

/-- Machine status read by `cmd_AUTO_OFFSET_Z`: the kinematics
`homed_axes` string and the `applied` flags of the alignment subsystems. -/
structure MachineStatus where
  homed_axes : List Char
  qgl_applied : Bool
  ztilt_applied : Bool
deriving Repr, DecidableEq

/-- The errors `cmd_AUTO_OFFSET_Z` can raise.  `nameErrorDispatch` models
the final else branch (line 153), which references the undefined name
`config` and so would raise `NameError` if ever reached. -/
inductive CmdErr where
  | notHomed
  | alignmentNotApplied
  | nameErrorDispatch
deriving Repr, DecidableEq

/-- Observable side effects of `cmd_AUTO_OFFSET_Z`, in order of issue. -/
inductive Action where
  | respondInfoIgnore
  | resetGcodeOffsetZ
  | startProbe
deriving Repr, DecidableEq

/-- Result of one `AUTO_OFFSET_Z` invocation: the actions performed before
returning or raising, and the raised error if any. -/
structure CmdResult where
  actions : List Action
  err : Option CmdErr
deriving Repr, DecidableEq

/-- Embedding of `AutoOffsetZCalibration.cmd_AUTO_OFFSET_Z` (lines
113-165): homing check, alignment check by `adjusttype`,
`SET_GCODE_OFFSET Z=0`, then `start_probe`.  The alignment `applied`
status is a Python bool compared with `!= 1`, i.e. the check fails
exactly when it is `False`. -/
def cmd_AUTO_OFFSET_Z (cfg : Config) (st : MachineStatus) : CmdResult :=
  if 'x' ∉ st.homed_axes ∨ 'y' ∉ st.homed_axes ∨ 'z' ∉ st.homed_axes then
    { actions := [], err := some .notHomed }
  else if cfg.adjusttype = "qgl" then
    if st.qgl_applied = false then
      { actions := [], err := some .alignmentNotApplied }
    else
      { actions := [.resetGcodeOffsetZ, .startProbe], err := none }
  else if cfg.adjusttype = "ztilt" then
    if st.ztilt_applied = false then
      { actions := [], err := some .alignmentNotApplied }
    else
      { actions := [.resetGcodeOffsetZ, .startProbe], err := none }
  else if cfg.adjusttype = "ignore" then
    { actions := [.respondInfoIgnore, .resetGcodeOffsetZ, .startProbe], err := none }
  else
    { actions := [], err := some .nameErrorDispatch }

/-- Rounding as the specification's words describe it, for comparison with
the source's `rounding`: scale by 1000; if the fractional remainder of the
scaled value is strictly less than 0.5 in absolute value, round toward
zero (floor of absolute value), otherwise round away from zero (ceiling
of absolute value); the sign of the input is reattached to the magnitude. -/
def round3Spec (n : ℚ) : ℚ :=
  let s := 1000 * n
  let mag : ℚ := if |s| - ⌊|s|⌋ < 1/2 then (⌊|s|⌋ : ℚ) else (⌈|s|⌉ : ℚ)
  (if n < 0 then -mag else mag) / 1000

/-! Concrete sample configurations, used to exercise the definitions. -/

/-- A well-formed raw configuration: BLTouch with offsets (5, 10), a
physical Z endstop pin, quad gantry level available, every defaulted
option left unset. -/
def rawW : RawConfig :=
  { position_max := 250
    ignore_alignment := none
    endstop_pin := "PC2".toList
    speed := none
    offsetadjust := none
    offset_min := none
    offset_max := none
    endstop_min := none
    endstop_max := none
    endstopswitch := none
    has_safe_z_home := true
    z_hop := some 10
    has_bltouch := true
    bltouch_x_offset := 5
    bltouch_y_offset := 10
    has_probe := false
    probe_x_offset := 0
    probe_y_offset := 0
    has_quad_gantry_level := true
    has_z_tilt := false
    probe_points := ((205, 305), (150, 150)) }

/-- The controller state `init` produces from `rawW`. -/
def cfgW : Config :=
  { max_z := 250
    ignore_alignment := false
    endstop_pin := "PC2".toList
    speed := 50
    offsetadjust := 0
    offset_min := -1
    offset_max := 1
    endstop_min := 0
    endstop_max := 0
    endstopswitch := 1/2
    zHop := 10
    x_offset := 5
    y_offset := 10
    adjusttype := "qgl"
    pointsEndstop := (200, 295)
    pointsBed := (145, 140)
    probePoints := ((200, 295), (145, 140)) }

/-- A controller state like `cfgW` but with endstop_min configured to 1. -/
def cfgC3 : Config := { cfgW with endstop_min := 1 }

theorem init_rawW : init rawW = .ok cfgW := by
  have hinf : ¬ (virtualEndstopChars <:+: ['P', 'C', '2']) := by decide
  simp only [init, rawW, cfgW]
  norm_num [hinf, Option.some_ne_none]

/-- Every field relation `init` guarantees on success: the defaulted
numeric options, the closed set of `adjusttype` values, the sensor offset
provenance and the translated probe points. -/
theorem init_fields (raw : RawConfig) (cfg : Config) (h : init raw = .ok cfg) :
    cfg.offsetadjust = raw.offsetadjust.getD 0 ∧
    cfg.offset_min = raw.offset_min.getD (-1) ∧
    cfg.offset_max = raw.offset_max.getD 1 ∧
    cfg.endstop_min = raw.endstop_min.getD 0 ∧
    cfg.endstop_max = raw.endstop_max.getD 0 ∧
    cfg.endstopswitch = raw.endstopswitch.getD (1/2) ∧
    (cfg.adjusttype = "qgl" ∨ cfg.adjusttype = "ztilt" ∨ cfg.adjusttype = "ignore") ∧
    (raw.has_bltouch = true →
      cfg.x_offset = raw.bltouch_x_offset ∧ cfg.y_offset = raw.bltouch_y_offset) ∧
    (raw.has_bltouch = false → raw.has_probe = true →
      cfg.x_offset = raw.probe_x_offset ∧ cfg.y_offset = raw.probe_y_offset) ∧
    cfg.pointsEndstop = (raw.probe_points.1.1 - cfg.x_offset, raw.probe_points.1.2 - cfg.y_offset) ∧
    cfg.pointsBed = (raw.probe_points.2.1 - cfg.x_offset, raw.probe_points.2.2 - cfg.y_offset) ∧
    cfg.probePoints = (cfg.pointsEndstop, cfg.pointsBed) := by
  simp only [init] at h
  split_ifs at h <;>
    first
    | exact Except.noConfusion h
    | (cases h
       refine ⟨rfl, rfl, rfl, rfl, rfl, rfl, ?_, ?_, ?_, rfl, rfl, rfl⟩ <;> simp_all)

/-! Helper lemmas about `rounding`. -/

/-- For a nonnegative argument the source's rounding agrees with the
specification's symmetric half-away-from-zero rule. -/
theorem rounding_of_nonneg (n : ℚ) (hn : 0 ≤ n) : rounding n 3 = round3Spec n := by
  have h1 : (0 : ℚ) ≤ n * 10 ^ 3 := by positivity
  have h2 : (0 : ℤ) ≤ ⌊n * 10 ^ 3⌋ := Int.floor_nonneg.mpr h1
  have h2q : (0 : ℚ) ≤ (⌊n * 10 ^ 3⌋ : ℚ) := by exact_mod_cast h2
  have hs : (1000 : ℚ) * n = n * 10 ^ 3 := by ring
  have hns : ¬ n < 0 := not_lt.mpr hn
  simp only [rounding, round3Spec, hs, abs_of_nonneg h1, abs_of_nonneg h2q, if_neg hns]
  split_ifs with h
  · norm_num
  · norm_num

/-- For a negative argument the source's rounding always takes the floor
branch: the guard `abs(expoN) - abs(math.floor(expoN)) < 0.5` compares
against the absolute value of the floor, which for negative `expoN` is at
least `abs(expoN)`, so the difference is never positive. -/
theorem rounding_of_neg (n : ℚ) (hn : n < 0) :
    rounding n 3 = (⌊n * 10 ^ 3⌋ : ℚ) / 10 ^ 3 := by
  have h1 : n * 10 ^ 3 < 0 := mul_neg_of_neg_of_pos hn (by norm_num)
  have h2 : (⌊n * 10 ^ 3⌋ : ℚ) ≤ n * 10 ^ 3 := Int.floor_le _
  have h3 : (⌊n * 10 ^ 3⌋ : ℚ) < 0 := lt_of_le_of_lt h2 h1
  have hcond : |n * 10 ^ 3| - |(⌊n * 10 ^ 3⌋ : ℚ)| < 1 / 2 := by
    rw [abs_of_neg h1, abs_of_neg h3]
    have hkey : -(n * 10 ^ 3) - -(⌊n * 10 ^ 3⌋ : ℚ) = (⌊n * 10 ^ 3⌋ : ℚ) - n * 10 ^ 3 := by
      ring
    rw [hkey]
    have hle : (⌊n * 10 ^ 3⌋ : ℚ) - n * 10 ^ 3 ≤ 0 := sub_nonpos.mpr h2
    exact lt_of_le_of_lt hle (by norm_num)
  simp only [rounding, if_pos hcond]

/-! Claim theorems. -/

/-- C2 counterexample: at n = -0.1232 the fractional part of the scaled
magnitude is 0.2 < 0.5, so the claimed rule rounds toward zero to -0.123,
but the source's `rounding` yields -0.124: the two functions differ. -/
theorem C2_counterexample :
    rounding (-(1232 / 10000)) 3 = -(124 / 1000) ∧
    round3Spec (-(1232 / 10000)) = -(123 / 1000) ∧
    rounding (-(1232 / 10000)) 3 ≠ round3Spec (-(1232 / 10000)) := by
  refine ⟨?_, ?_, ?_⟩ <;>
    norm_num [rounding, round3Spec, abs_of_nonneg, abs_of_nonpos, Int.fract]

/-- C2 (amended): `rounding n 3` scales by 1000 and divides back by 1000;
for nonnegative n it agrees with the claimed symmetric
round-half-away-from-zero rule `round3Spec`, but for negative n it always
returns the floor of the scaled value, rounding every negative
non-integer scaled value away from zero regardless of its fractional
part; the claim's two boundary examples round3(0.1235) = 0.124 and
round3(-0.1235) = -0.124 do hold. -/
theorem C2_rounding_characterization (n : ℚ) :
    (0 ≤ n → rounding n 3 = round3Spec n) ∧
    (n < 0 → rounding n 3 = (⌊(1000 : ℚ) * n⌋ : ℚ) / 1000) ∧
    rounding (1235 / 10000) 3 = 124 / 1000 ∧
    rounding (-(1235 / 10000)) 3 = -(124 / 1000) := by
  refine ⟨rounding_of_nonneg n, ?_, ?_, ?_⟩
  · intro hn
    rw [rounding_of_neg n hn, show ((1000 : ℚ) * n) = n * 10 ^ 3 from by ring]
    norm_num
  · have hc : (⌈(247 : ℚ) / 2⌉ : ℤ) = 124 := by
      rw [Int.ceil_eq_iff]
      norm_num
    norm_num [rounding, abs_of_nonneg, abs_of_nonpos, hc]
  · norm_num [rounding, abs_of_nonneg, abs_of_nonpos]

/-- C2 witness: the amended characterization applied at n = 0.1 and at
n = -0.1232. -/
theorem C2_rounding_characterization_witness :
    rounding (1 / 10) 3 = round3Spec (1 / 10) ∧
    rounding (-(1232 / 10000)) 3 = (⌊(1000 : ℚ) * -(1232 / 10000)⌋ : ℚ) / 1000 :=
  ⟨(C2_rounding_characterization (1 / 10)).1 (by norm_num),
   (C2_rounding_characterization (-(1232 / 10000))).2.1 (by norm_num)⟩

/-- C1: on a run that reaches the applier, the offset handed to
`set_offset` is `rounding` (to 3 decimals) of
`-(endstopZ - bedZ) + endstopswitch + offsetadjust`, where endstopZ is the
Z of the first probed position and bedZ the Z of the second. -/
theorem C1_offset_formula (cfg : Config) (p0 p1 : ℚ × ℚ × ℚ) (rest : List (ℚ × ℚ × ℚ))
    (off : ℚ) (h : probe_finalize cfg (p0 :: p1 :: rest) = Except.ok off) :
    off = rounding (-(p0.2.2 - p1.2.2) + cfg.endstopswitch + cfg.offsetadjust) 3 := by
  have harg : (0 - (p0.2.2 - p1.2.2) + cfg.endstopswitch) + cfg.offsetadjust
      = -(p0.2.2 - p1.2.2) + cfg.endstopswitch + cfg.offsetadjust := by ring
  simp only [probe_finalize] at h
  split_ifs at h
  cases h
  rw [harg]

/-- C1 witness: the end-to-end scenario bedZ = 2.000, endstopZ = 2.300,
endstopswitch = 0.5, offsetadjust = 0 produces offset 0.200. -/
theorem C1_offset_formula_witness :
    (1 / 5 : ℚ) = rounding (-(23 / 10 - 2) + cfgW.endstopswitch + cfgW.offsetadjust) 3 :=
  C1_offset_formula cfgW (0, 0, 23 / 10) (0, 0, 2) [] (1 / 5) (by
    norm_num [probe_finalize, cfgW, rounding, abs_of_nonneg])

/-- C3 (code bug): with endstop_min = 1 configured (nonzero) and a
measured endstop Z of 0.5, below the bound, the run does not raise the
endstop-out-of-range gcode error the claim describes: the check at line
193 evaluates `zendstop[2]` where `zendstop` is already the scalar
`positions[0][2]`, so subscripting the float raises `TypeError` instead
(and no offset is applied). -/
theorem C3_endstop_check_typeError :
    probe_finalize cfgC3 [(0, 0, 1 / 2), (0, 0, 1 / 2)] =
      Except.error FinErr.typeErrorMinCheck ∧
    (1 / 2 : ℚ) < cfgC3.endstop_min := by
  constructor
  · norm_num [probe_finalize, cfgC3, cfgW, rounding, abs_of_nonneg]
  · norm_num [cfgC3, cfgW]

/-- C4: whenever `probe_finalize` raises, the applier is not reached and
the coordinate offset keeps the zero installed by the pre-probe reset;
`set_offset` is reached only when the rounded offset lies within
[offset_min, offset_max] and both endstop bounds are unset (the only way
past the two float-subscript checks). -/
theorem C4_guard_gates_applier (cfg : Config) (positions : List (ℚ × ℚ × ℚ)) :
    (∀ e, probe_finalize cfg positions = Except.error e →
      probe_finalize_run cfg positions 0 = 0) ∧
    (∀ off, probe_finalize cfg positions = Except.ok off →
      cfg.offset_min ≤ off ∧ off ≤ cfg.offset_max ∧
      cfg.endstop_min = 0 ∧ cfg.endstop_max = 0) := by
  constructor
  · intro e he
    simp [probe_finalize_run, he]
  · intro off hoff
    rcases positions with _ | ⟨p0, _ | ⟨p1, rest⟩⟩
    · simp [probe_finalize] at hoff
    · simp [probe_finalize] at hoff
    · simp only [probe_finalize] at hoff
      split_ifs at hoff with h1 h2 h3
      cases hoff
      push_neg at h1
      exact ⟨h1.1, h1.2, not_not.mp h2, not_not.mp h3⟩

/-- C4 witness: a run whose computed offset -1.5 lies below the default
minimum fails and leaves the reset-to-zero offset in place. -/
theorem C4_guard_gates_applier_witness :
    probe_finalize_run cfgW [(0, 0, 4), (0, 0, 2)] 0 = 0 :=
  (C4_guard_gates_applier cfgW [(0, 0, 4), (0, 0, 2)]).1 FinErr.offsetOutOfRange (by
    norm_num [probe_finalize, cfgW, rounding, abs_of_nonneg, abs_of_nonpos])

/-- C5: the offset guard raises exactly when the rounded offset is
strictly below offset_min or strictly above offset_max, so values equal
to either bound are accepted; and a config that leaves both options unset
gets the default bounds -1 and 1. -/
theorem C5_offset_bounds_inclusive (cfg : Config) (p0 p1 : ℚ × ℚ × ℚ)
    (rest : List (ℚ × ℚ × ℚ)) (raw : RawConfig) (cfg' : Config)
    (hinit : init raw = Except.ok cfg')
    (hmin : raw.offset_min = none) (hmax : raw.offset_max = none) :
    (probe_finalize cfg (p0 :: p1 :: rest) = Except.error FinErr.offsetOutOfRange ↔
      rounding ((0 - (p0.2.2 - p1.2.2) + cfg.endstopswitch) + cfg.offsetadjust) 3 <
          cfg.offset_min ∨
      rounding ((0 - (p0.2.2 - p1.2.2) + cfg.endstopswitch) + cfg.offsetadjust) 3 >
          cfg.offset_max) ∧
    cfg'.offset_min = -1 ∧ cfg'.offset_max = 1 := by
  refine ⟨?_, ?_, ?_⟩
  · simp only [probe_finalize]
    split_ifs with h1 h2 h3
    · exact iff_of_true rfl h1
    · exact iff_of_false (by simp) h1
    · exact iff_of_false (by simp) h1
    · exact iff_of_false (by simp) h1
  · have hf := (init_fields raw cfg' hinit).2.1
    rw [hf, hmin]
    rfl
  · have hf := (init_fields raw cfg' hinit).2.2.1
    rw [hf, hmax]
    rfl

/-- C5 witness: the guard characterization at the sample configuration,
whose raw config leaves both offset bounds unset. -/
theorem C5_offset_bounds_inclusive_witness :
    (probe_finalize cfgW [(0, 0, 23 / 10), (0, 0, 2)] =
        Except.error FinErr.offsetOutOfRange ↔
      rounding ((0 - (((0 : ℚ), (0 : ℚ), (23 / 10 : ℚ)).2.2 -
          ((0 : ℚ), (0 : ℚ), (2 : ℚ)).2.2) + cfgW.endstopswitch) + cfgW.offsetadjust) 3 <
          cfgW.offset_min ∨
      rounding ((0 - (((0 : ℚ), (0 : ℚ), (23 / 10 : ℚ)).2.2 -
          ((0 : ℚ), (0 : ℚ), (2 : ℚ)).2.2) + cfgW.endstopswitch) + cfgW.offsetadjust) 3 >
          cfgW.offset_max) ∧
    cfgW.offset_min = -1 ∧ cfgW.offset_max = 1 :=
  C5_offset_bounds_inclusive cfgW (0, 0, 23 / 10) (0, 0, 2) [] rawW cfgW init_rawW rfl rfl

/-- C6: an endstop bound configured as exactly 0 disables that bound's
check regardless of the measured endstop value (the nonzero test
short-circuits before the failing subscript), and with both bounds 0 a
run can only end in the applied offset or the offset-range error. -/
theorem C6_zero_endstop_bounds_disable (cfg : Config) (p0 p1 : ℚ × ℚ × ℚ)
    (rest : List (ℚ × ℚ × ℚ)) :
    (cfg.endstop_min = 0 →
      probe_finalize cfg (p0 :: p1 :: rest) ≠ Except.error FinErr.typeErrorMinCheck) ∧
    (cfg.endstop_max = 0 →
      probe_finalize cfg (p0 :: p1 :: rest) ≠ Except.error FinErr.typeErrorMaxCheck) ∧
    (cfg.endstop_min = 0 → cfg.endstop_max = 0 →
      probe_finalize cfg (p0 :: p1 :: rest) = Except.error FinErr.offsetOutOfRange ∨
      ∃ off, probe_finalize cfg (p0 :: p1 :: rest) = Except.ok off) := by
  simp only [probe_finalize]
  split_ifs with h1 h2 h3 <;> simp_all

/-- C6 witness: with the default (both bounds 0) configuration no
endstop-related failure occurs on a sample run. -/
theorem C6_zero_endstop_bounds_disable_witness :
    probe_finalize cfgW [(0, 0, 23 / 10), (0, 0, 2)] =
      Except.error FinErr.offsetOutOfRange ∨
    ∃ off, probe_finalize cfgW [(0, 0, 23 / 10), (0, 0, 2)] = Except.ok off :=
  (C6_zero_endstop_bounds_disable cfgW (0, 0, 23 / 10) (0, 0, 2) []).2.2 rfl rfl

/-- C7: the applier is idempotent: issuing `set_offset` twice with the
same value from any prior offset-mechanism state ends in the same state
as issuing it once, because each invocation resets to zero and then sets
the value absolutely. -/
theorem C7_set_offset_idempotent (V state : ℚ) :
    set_offset (set_offset state V) V = set_offset state V := rfl

/-- C8: when any of x, y, z is missing from homed_axes the command fails
with the not-homed error before performing any action: no coordinate
offset reset and no probe start is issued. -/
theorem C8_not_homed_fails_first (cfg : Config) (st : MachineStatus)
    (h : ¬('x' ∈ st.homed_axes ∧ 'y' ∈ st.homed_axes ∧ 'z' ∈ st.homed_axes)) :
    cmd_AUTO_OFFSET_Z cfg st = { actions := [], err := some CmdErr.notHomed } := by
  unfold cmd_AUTO_OFFSET_Z
  rw [if_pos (by tauto)]

/-- C8 witness: homed_axes = "xy" (z missing) raises the not-homed error
with no action performed. -/
theorem C8_not_homed_fails_first_witness :
    cmd_AUTO_OFFSET_Z cfgW
        { homed_axes := ['x', 'y'], qgl_applied := true, ztilt_applied := true } =
      { actions := [], err := some CmdErr.notHomed } :=
  C8_not_homed_fails_first cfgW
    { homed_axes := ['x', 'y'], qgl_applied := true, ztilt_applied := true } (by decide)

/-- C9: the two points handed to the probing helper are, in order, the
configured endstop point and the configured reference (bed) point, each
with the sensor's x and y mounting offsets subtracted; the offsets come
from the bltouch section when one is present. -/
theorem C9_probe_points (raw : RawConfig) (cfg : Config)
    (h : init raw = Except.ok cfg) :
    cfg.probePoints =
      ((raw.probe_points.1.1 - cfg.x_offset, raw.probe_points.1.2 - cfg.y_offset),
       (raw.probe_points.2.1 - cfg.x_offset, raw.probe_points.2.2 - cfg.y_offset)) ∧
    cfg.probePoints.1 = cfg.pointsEndstop ∧
    cfg.probePoints.2 = cfg.pointsBed ∧
    (raw.has_bltouch = true →
      cfg.x_offset = raw.bltouch_x_offset ∧ cfg.y_offset = raw.bltouch_y_offset) := by
  obtain ⟨-, -, -, -, -, -, -, hbl, -, hpe, hpb, hpp⟩ := init_fields raw cfg h
  refine ⟨?_, ?_, ?_, hbl⟩
  · rw [hpp, hpe, hpb]
  · rw [hpp]
  · rw [hpp]

/-- C9 witness: translated probe points of the sample configuration. -/
theorem C9_probe_points_witness :
    cfgW.probePoints =
      ((rawW.probe_points.1.1 - cfgW.x_offset, rawW.probe_points.1.2 - cfgW.y_offset),
       (rawW.probe_points.2.1 - cfgW.x_offset, rawW.probe_points.2.2 - cfgW.y_offset)) ∧
    cfgW.probePoints.1 = cfgW.pointsEndstop ∧
    cfgW.probePoints.2 = cfgW.pointsBed ∧
    (rawW.has_bltouch = true →
      cfgW.x_offset = rawW.bltouch_x_offset ∧ cfgW.y_offset = rawW.bltouch_y_offset) :=
  C9_probe_points rawW cfgW init_rawW

/-- C10: every successfully constructed controller has adjusttype among
"qgl", "ztilt" and "ignore", so the final dispatch branch of
cmd_AUTO_OFFSET_Z, which would raise a NameError on the undefined name
`config`, is unreachable. -/
theorem C10_adjusttype_closed (raw : RawConfig) (cfg : Config)
    (h : init raw = Except.ok cfg) (st : MachineStatus) :
    (cfg.adjusttype = "qgl" ∨ cfg.adjusttype = "ztilt" ∨ cfg.adjusttype = "ignore") ∧
    (cmd_AUTO_OFFSET_Z cfg st).err ≠ some CmdErr.nameErrorDispatch := by
  obtain ⟨-, -, -, -, -, -, hadj, -⟩ := init_fields raw cfg h
  refine ⟨hadj, ?_⟩
  unfold cmd_AUTO_OFFSET_Z
  split_ifs <;> simp_all

/-- C10 witness: the sample configuration's adjusttype and a homed,
leveled invocation that cannot reach the dead dispatch branch. -/
theorem C10_adjusttype_closed_witness :
    (cfgW.adjusttype = "qgl" ∨ cfgW.adjusttype = "ztilt" ∨ cfgW.adjusttype = "ignore") ∧
    (cmd_AUTO_OFFSET_Z cfgW
        { homed_axes := ['x', 'y', 'z'], qgl_applied := true, ztilt_applied := true }).err ≠
      some CmdErr.nameErrorDispatch :=
  C10_adjusttype_closed rawW cfgW init_rawW
    { homed_axes := ['x', 'y', 'z'], qgl_applied := true, ztilt_applied := true }

end AutoOffsetZ
